import Mathlib

/-!
Verification of the Graph email relay service (app-only / client-credentials
variant). The definitions below are a shallow embedding of the pure and
state-passing logic of the service source: the request model, the token cache
save helper, the token acquisition flow, the mail payload builder, and the
HTTP endpoint orchestration. External effects (the MSAL library calls, the
outbound HTTP POST, the filesystem) are modelled as explicit inputs: the
results the library would return, a relay function producing the downstream
HTTP response, and the cache file content passed in and out.
-/

set_option maxHeartbeats 1000000

namespace Mail

/-- Python truthiness of a string: truthy iff non-empty. -/
def pyTruthy (s : String) : Bool := s != ""

/-- Python str.strip(): drop leading and trailing whitespace. -/
def pyStrip (s : String) : String :=
  String.mk (((s.data.dropWhile Char.isWhitespace).reverse.dropWhile
    Char.isWhitespace).reverse)

/-- Python str.lower(): lowercase every character. -/
def pyLower (s : String) : String :=
  String.mk (s.data.map Char.toLower)

/-- Python truthiness of an optional string (None and the empty string are
falsy), as returned by os.getenv. -/
def pyTruthyOpt (s : Option String) : Bool :=
  match s with
  | none => false
  | some s => s != ""

/-- Python `x or default` where x is an optional string: None and the empty
string fall back to the default. -/
def pyOrStr (x : Option String) (d : String) : String :=
  match x with
  | none => d
  | some s => if s = "" then d else s

/-- Python `a or b` where both are optional strings. -/
def pyOrOpt (a b : Option String) : Option String :=
  match a with
  | none => b
  | some s => if s = "" then b else some s

/-- AttachmentIn model (pydantic): name, base64 content, optional MIME type. -/
structure AttachmentIn where
  name : String
  content_base64 : String
  content_type : Option String
deriving Repr, DecidableEq

/-- SendEmailRequest model (pydantic). -/
structure SendEmailRequest where
  from_email : Option String
  «to» : List String
  cc : Option (List String)
  subject : String
  body_html : String
  importance : Option String
  attachments : Option (List AttachmentIn)
deriving Repr, DecidableEq

/-- Graph emailAddress object. -/
structure EmailAddress where
  address : String
deriving Repr, DecidableEq

/-- Graph recipient object, wrapping an emailAddress. -/
structure Recipient where
  emailAddress : EmailAddress
deriving Repr, DecidableEq

/-- Graph file attachment descriptor built from an AttachmentIn. -/
structure FileAttachment where
  odataType : String
  name : String
  contentType : String
  contentBytes : String
deriving Repr, DecidableEq

/-- Graph message body object. -/
structure MessageBody where
  contentType : String
  content : String
deriving Repr, DecidableEq

/-- Graph message object. `none` for ccRecipients or attachments means the
field is absent from the JSON payload. -/
structure GraphMessage where
  subject : String
  importance : String
  body : MessageBody
  toRecipients : List Recipient
  ccRecipients : Option (List Recipient)
  attachments : Option (List FileAttachment)
deriving Repr, DecidableEq

/-- The full sendMail request payload. -/
structure GraphPayload where
  message : GraphMessage
  saveToSentItems : Bool
deriving Repr, DecidableEq

/-- Importance normalization from send_graph_mail:
`importance = (importance or "normal").lower()` and coercion to "normal"
when outside the allowed set. -/
def normalizeImportance (importance : Option String) : String :=
  let imp := pyLower (pyOrStr importance "normal")
  if imp = "high" ∨ imp = "normal" ∨ imp = "low" then imp else "normal"

/-- The recipient list comprehension from send_graph_mail: keep addresses
whose stripped form is truthy, mapped to recipient objects of the stripped
address. -/
def recipientsOf (emails : List String) : List Recipient :=
  (emails.filter (fun addr => pyTruthy (pyStrip addr))).map
    (fun addr => { emailAddress := { address := pyStrip addr } })

/-- CC recipient computation from send_graph_mail: start from the empty
list, and only when cc_emails is truthy (non-None, non-empty) apply the
comprehension. -/
def ccRecipientsOf (cc_emails : Option (List String)) : List Recipient :=
  match cc_emails with
  | none => []
  | some l => if l = [] then [] else recipientsOf l

/-- Mapping of one AttachmentIn to a Graph file-attachment descriptor,
from the attachment loop of send_graph_mail. -/
def graphAttachmentOf (att : AttachmentIn) : FileAttachment :=
  { odataType := "#microsoft.graph.fileAttachment"
    name := att.name
    contentType := pyOrStr att.content_type "application/octet-stream"
    contentBytes := att.content_base64 }

/-- The pure payload-building part of send_graph_mail. The access token and
sender arguments of the source function only feed the request URL and
headers, not the JSON payload, so they are omitted here. -/
def send_graph_mail (to_emails : List String) (cc_emails : Option (List String))
    (subject : String) (body_html : String) (importance : Option String)
    (attachments : Option (List AttachmentIn)) : GraphPayload :=
  let imp := normalizeImportance importance
  let to_recipients := recipientsOf to_emails
  let cc_recipients := ccRecipientsOf cc_emails
  { message :=
      { subject := subject
        importance := imp
        body := { contentType := "HTML", content := body_html }
        toRecipients := to_recipients
        ccRecipients := if cc_recipients = [] then none else some cc_recipients
        attachments :=
          match attachments with
          | none => none
          | some l => if l = [] then none else some (l.map graphAttachmentOf) }
    saveToSentItems := true }

/-- An MSAL SerializableTokenCache handle: whether its state changed since
load, and what serialize() would produce. -/
structure TokenCache where
  has_state_changed : Bool
  serialized : String
deriving Repr, DecidableEq

/-- save_cache: given the cache handle and the current cache file content
(none when the file does not exist), return the file content afterwards.
The file is written only when the handle reports changed state. -/
def save_cache (cache : TokenCache) (file : Option String) : Option String :=
  if cache.has_state_changed then some cache.serialized else file

/-- A minimal JSON-object serialization of a string-valued result dict,
standing in for json.dumps on the MSAL result. -/
def jsonDumps (entries : List (String × String)) : String :=
  "\x7b" ++ String.intercalate ", "
    (entries.map (fun e => "\"" ++ e.1 ++ "\": \"" ++ e.2 ++ "\"")) ++ "\x7d"

/-- The identity-provider responses an invocation of get_app_access_token
would observe: the acquire_token_silent result (none when the cache yields
nothing) and the acquire_token_for_client result, each a string-keyed
result dict modelled as an association list. -/
structure TokenEnv where
  silentResult : Option (List (String × String))
  clientCredResult : List (String × String)
deriving Repr, DecidableEq

/-- The result dict get_app_access_token ends up inspecting: the silent
result when truthy (non-None and non-empty), otherwise the
client-credentials result. -/
def acquiredResult (env : TokenEnv) : List (String × String) :=
  match env.silentResult with
  | none => env.clientCredResult
  | some r => if r = [] then env.clientCredResult else r

/-- get_app_access_token: silent acquisition first, client-credentials
fallback; on an access_token key, persist the cache and return the token;
otherwise raise carrying the serialized result. Returns the outcome
together with the cache file content afterwards. -/
def get_app_access_token (env : TokenEnv) (cache : TokenCache)
    (file : Option String) : Except String String × Option String :=
  let result := acquiredResult env
  match result.lookup "access_token" with
  | some tok => (Except.ok tok, save_cache cache file)
  | none =>
      (Except.error ("Could not obtain access token: " ++ jsonDumps result), file)

/-- Environment configuration read by the endpoint. -/
structure Config where
  EMAIL_API_KEY : Option String
  DEFAULT_SENDER : Option String
deriving Repr, DecidableEq

/-- The downstream HTTP response from the Graph sendMail POST. -/
structure HttpResp where
  status_code : Nat
  text : String
deriving Repr, DecidableEq

/-- Response detail payloads the endpoint can produce. -/
inductive Detail where
  | msg : String → Detail
  | graphError : String → Detail
  | okBody : String → String → Detail
deriving Repr, DecidableEq

/-- An HTTP response of the endpoint: status code and body. -/
structure ApiResponse where
  status_code : Nat
  body : Detail
deriving Repr, DecidableEq

/-- Outcome of one endpoint invocation: the response, whether
get_app_access_token was invoked, and whether the relay POST was issued. -/
structure EndpointOutcome where
  response : ApiResponse
  tokenAcquired : Bool
  relayCalled : Bool
deriving Repr, DecidableEq

/-- send_email_api: API-key check, validation, sender resolution, token
acquisition (its outcome supplied as the token argument), payload build,
relay (supplied as a function from payload to downstream response), and
response mapping. -/
def send_email_api (cfg : Config) (x_api_key : Option String)
    (payload : SendEmailRequest) (token : Except String String)
    (relay : GraphPayload → HttpResp) : EndpointOutcome :=
  if pyTruthyOpt cfg.EMAIL_API_KEY && (x_api_key != cfg.EMAIL_API_KEY) then
    { response := { status_code := 401, body := Detail.msg "Unauthorized" }
      tokenAcquired := false, relayCalled := false }
  else if payload.«to» = [] then
    { response := { status_code := 400
                    body := Detail.msg "At least one TO recipient is required." }
      tokenAcquired := false, relayCalled := false }
  else
    let sender := pyOrOpt payload.from_email cfg.DEFAULT_SENDER
    if !pyTruthyOpt sender then
      { response := { status_code := 400
                      body := Detail.msg "Sender email is required. Provide from_email in payload or set DEFAULT_SENDER env var." }
        tokenAcquired := false, relayCalled := false }
    else
      match token with
      | Except.error e =>
          { response := { status_code := 500
                          body := Detail.msg ("Failed to get Graph access token (client credentials). Error: " ++ e) }
            tokenAcquired := true, relayCalled := false }
      | Except.ok _ =>
          let resp := relay (send_graph_mail payload.«to» payload.cc
            payload.subject payload.body_html
            (some (pyOrStr payload.importance "normal")) payload.attachments)
          if resp.status_code ≠ 202 then
            { response := { status_code := resp.status_code
                            body := Detail.graphError resp.text }
              tokenAcquired := true, relayCalled := true }
          else
            { response := { status_code := 200, body := Detail.okBody "OK" "Email sent" }
              tokenAcquired := true, relayCalled := true }

/-! Projection lemmas for the payload builder. -/

theorem send_graph_mail_importance (to_emails : List String)
    (cc : Option (List String)) (subject body : String) (imp : Option String)
    (atts : Option (List AttachmentIn)) :
    (send_graph_mail to_emails cc subject body imp atts).message.importance =
      normalizeImportance imp := rfl

theorem send_graph_mail_ccRecipients (to_emails : List String)
    (cc : Option (List String)) (subject body : String) (imp : Option String)
    (atts : Option (List AttachmentIn)) :
    (send_graph_mail to_emails cc subject body imp atts).message.ccRecipients =
      (if ccRecipientsOf cc = [] then none else some (ccRecipientsOf cc)) := rfl

theorem send_graph_mail_attachments (to_emails : List String)
    (cc : Option (List String)) (subject body : String) (imp : Option String)
    (atts : Option (List AttachmentIn)) :
    (send_graph_mail to_emails cc subject body imp atts).message.attachments =
      (match atts with
       | none => none
       | some l => if l = [] then none else some (l.map graphAttachmentOf)) := rfl

/-! Helper lemmas about the recipient comprehension. -/

theorem recipientsOf_eq_nil_of_all_blank {l : List String}
    (h : ∀ a ∈ l, pyStrip a = "") : recipientsOf l = [] := by
  unfold recipientsOf
  have hf : l.filter (fun addr => pyTruthy (pyStrip addr)) = [] := by
    apply List.filter_eq_nil_iff.mpr
    intro a ha
    simp [pyTruthy, h a ha]
  rw [hf]
  rfl

theorem recipientsOf_ne_nil_of_mem {l : List String} {a : String}
    (ha : a ∈ l) (hne : pyStrip a ≠ "") : recipientsOf l ≠ [] := by
  unfold recipientsOf
  intro hcontra
  rw [List.map_eq_nil_iff] at hcontra
  have hblk := List.filter_eq_nil_iff.mp hcontra a ha
  simp [pyTruthy] at hblk
  exact hne hblk

/-- C8: save_cache writes the serialized state to the cache file exactly when
the handle reports changed state; when it reports no change the file content
is left as it was. -/
theorem save_cache_spec (cache : TokenCache) (file : Option String) :
    (cache.has_state_changed = true → save_cache cache file = some cache.serialized) ∧
    (cache.has_state_changed = false → save_cache cache file = file) := by
  unfold save_cache
  constructor <;> intro h <;> simp [h]

theorem save_cache_spec_witness :
    save_cache ⟨true, "state"⟩ none = some "state" ∧
    save_cache ⟨false, "state"⟩ (some "old") = some "old" :=
  ⟨(save_cache_spec ⟨true, "state"⟩ none).1 rfl,
   (save_cache_spec ⟨false, "state"⟩ (some "old")).2 rfl⟩

/-- C7: get_app_access_token returns the access-token value and persists the
cache exactly when the acquisition result has an access_token key; when the
key is absent it fails with an error embedding the serialized result and the
cache file is untouched. -/
theorem get_app_access_token_spec (env : TokenEnv) (cache : TokenCache)
    (file : Option String) :
    (∀ tok, (acquiredResult env).lookup "access_token" = some tok →
        get_app_access_token env cache file = (Except.ok tok, save_cache cache file)) ∧
    ((acquiredResult env).lookup "access_token" = none →
        get_app_access_token env cache file =
          (Except.error ("Could not obtain access token: " ++
              jsonDumps (acquiredResult env)), file)) := by
  constructor
  · intro tok h
    simp [get_app_access_token, h]
  · intro h
    simp [get_app_access_token, h]

theorem get_app_access_token_spec_witness :
    get_app_access_token ⟨none, [("access_token", "tok123")]⟩ ⟨true, "st"⟩ none =
      (Except.ok "tok123", some "st") ∧
    get_app_access_token ⟨some [("error", "denied")], []⟩ ⟨true, "st"⟩ none =
      (Except.error ("Could not obtain access token: " ++
          jsonDumps [("error", "denied")]), none) :=
  ⟨(get_app_access_token_spec ⟨none, [("access_token", "tok123")]⟩
      ⟨true, "st"⟩ none).1 "tok123" (by decide),
   (get_app_access_token_spec ⟨some [("error", "denied")], []⟩
      ⟨true, "st"⟩ none).2 (by decide)⟩

/-- C3: the importance field of the built payload equals the lowercased input
when that value is high, normal or low, and "normal" for every other input,
None and the empty string included; no input is rejected. -/
theorem importance_coercion (to_emails : List String) (cc : Option (List String))
    (subject body : String) (imp : Option String)
    (atts : Option (List AttachmentIn)) :
    (send_graph_mail to_emails cc subject body imp atts).message.importance =
      (match imp with
       | none => "normal"
       | some s =>
           if pyLower s = "high" ∨ pyLower s = "normal" ∨ pyLower s = "low"
           then pyLower s else "normal") := by
  rw [send_graph_mail_importance]
  cases imp with
  | none => rfl
  | some s =>
      by_cases hs : s = ""
      · subst hs; decide
      · unfold normalizeImportance pyOrStr
        simp [hs]

/-- C9: the built payload has an attachments field exactly when the
attachments input is a non-empty list; an explicitly supplied empty list
builds the very same payload as None. -/
theorem attachments_presence (to_emails : List String) (cc : Option (List String))
    (subject body : String) (imp : Option String)
    (atts : Option (List AttachmentIn)) :
    ((send_graph_mail to_emails cc subject body imp atts).message.attachments ≠ none ↔
        ∃ l, atts = some l ∧ l ≠ []) ∧
    send_graph_mail to_emails cc subject body imp (some []) =
      send_graph_mail to_emails cc subject body imp none := by
  constructor
  · rw [send_graph_mail_attachments]
    cases atts with
    | none => simp
    | some l =>
        by_cases hl : l = []
        · subst hl; simp
        · simp [hl]
  · rfl

/-- C10: with a non-empty attachments list the built attachments field holds
the 1:1 mapped descriptors: name and base64 content are copied verbatim, and
contentType is the given MIME type when that is a non-empty string and
application/octet-stream when it is None or empty. -/
theorem attachment_mapping (to_emails : List String) (cc : Option (List String))
    (subject body : String) (imp : Option String) (l : List AttachmentIn)
    (hl : l ≠ []) :
    (send_graph_mail to_emails cc subject body imp (some l)).message.attachments =
      some (l.map graphAttachmentOf) ∧
    ∀ att : AttachmentIn,
      (graphAttachmentOf att).name = att.name ∧
      (graphAttachmentOf att).contentBytes = att.content_base64 ∧
      (graphAttachmentOf att).contentType =
        (match att.content_type with
         | none => "application/octet-stream"
         | some ct => if ct = "" then "application/octet-stream" else ct) := by
  constructor
  · rw [send_graph_mail_attachments]
    simp [hl]
  · intro att
    refine ⟨rfl, rfl, ?_⟩
    unfold graphAttachmentOf pyOrStr
    rfl

theorem attachment_mapping_witness :
    (send_graph_mail ["t@x.com"] none "s" "b" none
        (some [⟨"f.txt", "QUJD", none⟩])).message.attachments =
      some [⟨"#microsoft.graph.fileAttachment", "f.txt",
        "application/octet-stream", "QUJD"⟩] := by
  have h := (attachment_mapping ["t@x.com"] none "s" "b" none
    [⟨"f.txt", "QUJD", none⟩] (by decide)).1
  rw [h]
  decide

/-- C4: the CC field is omitted entirely whenever the CC input is None, empty,
or made only of blank strings; otherwise it holds exactly the stripped
non-blank addresses in their input order. -/
theorem cc_field_spec (to_emails : List String) (cc : Option (List String))
    (subject body : String) (imp : Option String)
    (atts : Option (List AttachmentIn)) :
    ((∀ a ∈ cc.getD [], pyStrip a = "") →
        (send_graph_mail to_emails cc subject body imp atts).message.ccRecipients =
          none) ∧
    ((∃ a ∈ cc.getD [], pyStrip a ≠ "") →
        (send_graph_mail to_emails cc subject body imp atts).message.ccRecipients =
          some (((cc.getD []).filter (fun a => pyTruthy (pyStrip a))).map
            (fun a => { emailAddress := { address := pyStrip a } }))) := by
  rw [send_graph_mail_ccRecipients]
  constructor
  · intro h
    cases cc with
    | none => rfl
    | some l =>
        by_cases hl : l = []
        · subst hl; rfl
        · have hnil : ccRecipientsOf (some l) = [] := by
            unfold ccRecipientsOf
            simp only [hl, if_false]
            exact recipientsOf_eq_nil_of_all_blank (by simpa using h)
          simp [hnil]
  · rintro ⟨a, ha, hne⟩
    cases cc with
    | none => simp at ha
    | some l =>
        simp only [Option.getD_some] at ha
        have hl : l ≠ [] := by
          intro h0
          subst h0
          simp at ha
        have hcc : ccRecipientsOf (some l) = recipientsOf l := by
          unfold ccRecipientsOf
          simp [hl]
        have hnn : recipientsOf l ≠ [] := recipientsOf_ne_nil_of_mem ha hne
        rw [hcc, if_neg hnn]
        unfold recipientsOf
        simp

theorem cc_field_spec_witness :
    (send_graph_mail ["t@x.com"] (some ["a@x.com", " "]) "s" "b" none
        none).message.ccRecipients =
      some [{ emailAddress := { address := "a@x.com" } }] ∧
    (send_graph_mail ["t@x.com"] (some [" "]) "s" "b" none
        none).message.ccRecipients = none := by
  constructor
  · have h := (cc_field_spec ["t@x.com"] (some ["a@x.com", " "]) "s" "b" none
      none).2 ⟨"a@x.com", by decide, by decide⟩
    rw [h]
    decide
  · exact (cc_field_spec ["t@x.com"] (some [" "]) "s" "b" none none).1 (by decide)

/-! Endpoint helper: outcome on an empty TO list. -/

theorem empty_to_outcome (cfg : Config) (k : Option String)
    (payload : SendEmailRequest) (token : Except String String)
    (relay : GraphPayload → HttpResp) (hto : payload.«to» = []) :
    send_email_api cfg k payload token relay =
      (if pyTruthyOpt cfg.EMAIL_API_KEY && (k != cfg.EMAIL_API_KEY)
       then { response := { status_code := 401, body := Detail.msg "Unauthorized" }
              tokenAcquired := false, relayCalled := false }
       else { response := { status_code := 400
                            body := Detail.msg "At least one TO recipient is required." }
              tokenAcquired := false, relayCalled := false }) := by
  unfold send_email_api
  by_cases hk : (pyTruthyOpt cfg.EMAIL_API_KEY && (k != cfg.EMAIL_API_KEY)) = true
  · simp [hk]
  · simp only [Bool.not_eq_true] at hk
    simp [hk, hto]

/-- C2: for any request whose TO list is empty, token acquisition is never
invoked, and whenever the API-key check passes the endpoint answers with the
400 validation error. -/
theorem empty_to_rejected_before_token (cfg : Config) (k : Option String)
    (payload : SendEmailRequest) (token : Except String String)
    (relay : GraphPayload → HttpResp) (hto : payload.«to» = []) :
    (send_email_api cfg k payload token relay).tokenAcquired = false ∧
    ((pyTruthyOpt cfg.EMAIL_API_KEY && (k != cfg.EMAIL_API_KEY)) = false →
        (send_email_api cfg k payload token relay).response =
          { status_code := 400
            body := Detail.msg "At least one TO recipient is required." }) := by
  rw [empty_to_outcome cfg k payload token relay hto]
  constructor
  · by_cases hk : (pyTruthyOpt cfg.EMAIL_API_KEY && (k != cfg.EMAIL_API_KEY)) = true <;>
      simp [hk]
  · intro hk
    simp [hk]

theorem empty_to_rejected_before_token_witness :
    (send_email_api ⟨none, none⟩ none ⟨none, [], none, "s", "b", none, none⟩
        (Except.ok "t") (fun _ => ⟨202, ""⟩)).tokenAcquired = false ∧
    (send_email_api ⟨none, none⟩ none ⟨none, [], none, "s", "b", none, none⟩
        (Except.ok "t") (fun _ => ⟨202, ""⟩)).response =
      { status_code := 400
        body := Detail.msg "At least one TO recipient is required." } :=
  ⟨(empty_to_rejected_before_token ⟨none, none⟩ none
      ⟨none, [], none, "s", "b", none, none⟩ (Except.ok "t")
      (fun _ => ⟨202, ""⟩) rfl).1,
   (empty_to_rejected_before_token ⟨none, none⟩ none
      ⟨none, [], none, "s", "b", none, none⟩ (Except.ok "t")
      (fun _ => ⟨202, ""⟩) rfl).2 (by decide)⟩

/-- C1 (counterexample): a request whose TO list is a single blank string is
not rejected with a 400 validation error, the endpoint answers 200, yet the
built payload toRecipients list is empty: after trimming there is no
non-empty address. -/
theorem blank_to_accepted_counterexample :
    (send_email_api ⟨none, some "sender@x.com"⟩ none
        ⟨none, [" "], none, "s", "b", some "normal", none⟩
        (Except.ok "tok") (fun _ => ⟨202, ""⟩)).response.status_code = 200 ∧
    (send_graph_mail [" "] none "s" "b" (some "normal")
        none).message.toRecipients = [] := by
  decide

/-- C1 (amended): every request that passes validation and reaches token
acquisition has a TO list that is non-empty as a list; blank entries are not
rejected, so the built toRecipients list may nevertheless be empty. -/
theorem validated_to_list_nonempty (cfg : Config) (k : Option String)
    (payload : SendEmailRequest) (token : Except String String)
    (relay : GraphPayload → HttpResp)
    (h : (send_email_api cfg k payload token relay).tokenAcquired = true) :
    payload.«to» ≠ [] := by
  intro hto
  rw [empty_to_outcome cfg k payload token relay hto] at h
  by_cases hk : (pyTruthyOpt cfg.EMAIL_API_KEY && (k != cfg.EMAIL_API_KEY)) = true <;>
    simp [hk] at h

theorem validated_to_list_nonempty_witness :
    (send_email_api ⟨none, some "d@x.com"⟩ none
        ⟨none, ["a@x.com"], none, "s", "b", none, none⟩
        (Except.ok "t") (fun _ => ⟨202, ""⟩)).tokenAcquired = true ∧
    (["a@x.com"] : List String) ≠ [] :=
  ⟨by decide,
   validated_to_list_nonempty ⟨none, some "d@x.com"⟩ none
     ⟨none, ["a@x.com"], none, "s", "b", none, none⟩
     (Except.ok "t") (fun _ => ⟨202, ""⟩) (by decide)⟩

/-! Endpoint helper: the 401 Unauthorized response occurs exactly when the
API-key condition of the source holds. -/

theorem unauthorized_response_iff (cfg : Config) (k : Option String)
    (payload : SendEmailRequest) (token : Except String String)
    (relay : GraphPayload → HttpResp) :
    (send_email_api cfg k payload token relay).response =
        { status_code := 401, body := Detail.msg "Unauthorized" } ↔
      (pyTruthyOpt cfg.EMAIL_API_KEY && (k != cfg.EMAIL_API_KEY)) = true := by
  unfold send_email_api
  by_cases hk : (pyTruthyOpt cfg.EMAIL_API_KEY && (k != cfg.EMAIL_API_KEY)) = true
  · simp [hk]
  · simp only [Bool.not_eq_true] at hk
    simp only [hk, Bool.false_eq_true, if_false]
    constructor
    · intro hresp
      exfalso
      by_cases hto : payload.«to» = []
      · simp [hto] at hresp
      · simp only [hto, if_false] at hresp
        by_cases hsend :
            (!pyTruthyOpt (pyOrOpt payload.from_email cfg.DEFAULT_SENDER)) = true
        · simp [hsend] at hresp
        · simp only [hsend, Bool.false_eq_true, if_false] at hresp
          cases token with
          | error e => simp at hresp
          | ok t =>
              by_cases h202 :
                  (relay (send_graph_mail payload.«to» payload.cc payload.subject
                    payload.body_html (some (pyOrStr payload.importance "normal"))
                    payload.attachments)).status_code ≠ 202
              · simp only [if_pos h202] at hresp
                have := congrArg ApiResponse.body hresp
                simp at this
              · simp [h202] at hresp
    · exact fun h => h.elim

/-- C5: the endpoint answers 401 Unauthorized exactly when an API key is
configured (set and non-empty) and the supplied X-Api-Key header is absent or
differs from it; when no API key is configured the check passes for every
header value. -/
theorem api_key_gate (cfg : Config) (k : Option String)
    (payload : SendEmailRequest) (token : Except String String)
    (relay : GraphPayload → HttpResp) :
    (send_email_api cfg k payload token relay).response =
        { status_code := 401, body := Detail.msg "Unauthorized" } ↔
      ∃ key, cfg.EMAIL_API_KEY = some key ∧ key ≠ "" ∧ k ≠ some key := by
  rw [unauthorized_response_iff]
  cases hk : cfg.EMAIL_API_KEY with
  | none => simp [pyTruthyOpt]
  | some key =>
      constructor
      · intro h
        rw [Bool.and_eq_true] at h
        refine ⟨key, rfl, ?_, ?_⟩
        · have := h.1
          simpa [pyTruthyOpt] using this
        · have := h.2
          simpa using this
      · rintro ⟨key', hkey, hne, hnek⟩
        injection hkey with hkk
        subst hkk
        simp [pyTruthyOpt, hne, hnek]

/-- C6: once a request passes the API-key check, validation and sender
resolution, and the token is obtained, a relay status of 202 yields the 200 OK
Email-sent response, and any other relay status is forwarded verbatim with the
raw downstream body as the graph_error detail. -/
theorem relay_response_mapping (cfg : Config) (k : Option String)
    (payload : SendEmailRequest) (tok : String) (resp : HttpResp)
    (hauth : (pyTruthyOpt cfg.EMAIL_API_KEY && (k != cfg.EMAIL_API_KEY)) = false)
    (hto : payload.«to» ≠ [])
    (hsender : pyTruthyOpt (pyOrOpt payload.from_email cfg.DEFAULT_SENDER) = true) :
    (resp.status_code = 202 →
        (send_email_api cfg k payload (Except.ok tok) (fun _ => resp)).response =
          { status_code := 200, body := Detail.okBody "OK" "Email sent" }) ∧
    (resp.status_code ≠ 202 →
        (send_email_api cfg k payload (Except.ok tok) (fun _ => resp)).response =
          { status_code := resp.status_code
            body := Detail.graphError resp.text }) := by
  unfold send_email_api
  simp only [hauth, Bool.false_eq_true, if_false, hto, hsender, Bool.not_true]
  constructor
  · intro h
    simp [hto, h]
  · intro h
    simp [hto, h]

theorem relay_response_mapping_witness :
    (send_email_api ⟨none, some "d@x.com"⟩ none
        ⟨none, ["a@x.com"], none, "s", "b", none, none⟩
        (Except.ok "t") (fun _ => ⟨202, ""⟩)).response =
      { status_code := 200, body := Detail.okBody "OK" "Email sent" } ∧
    (send_email_api ⟨none, some "d@x.com"⟩ none
        ⟨none, ["a@x.com"], none, "s", "b", none, none⟩
        (Except.ok "t") (fun _ => ⟨400, "err"⟩)).response =
      { status_code := 400, body := Detail.graphError "err" } :=
  ⟨(relay_response_mapping ⟨none, some "d@x.com"⟩ none
      ⟨none, ["a@x.com"], none, "s", "b", none, none⟩ "t" ⟨202, ""⟩
      (by decide) (by decide) (by decide)).1 rfl,
   (relay_response_mapping ⟨none, some "d@x.com"⟩ none
      ⟨none, ["a@x.com"], none, "s", "b", none, none⟩ "t" ⟨400, "err"⟩
      (by decide) (by decide) (by decide)).2 (by decide)⟩

end Mail
